import Mathlib

/-!
Shallow embedding of the CO2LaserStabilizer repository.

Host side (stablizer.py): the Pid controller class, the set_pwm serial
encoder, and the closed-loop control tick executed while the power stream
runs with closed-loop control enabled.

Device side (micropython/main.py): the command-processing loop — JSON
parsing result handling, truthiness check, key-presence check, int
coercion, range check, PWM actuation and status publication — and the
single-slot status mailbox shared with the monitor (renderer) thread.

Python floats are modelled as exact rationals (the claims under study are
algebraic properties of the control law and the decoder, not statements
about IEEE-754 rounding); Python ints are modelled as Lean Int.
-/

namespace CO2Laser

/-- JSON values as returned by json.loads.  Integer literals become Python
ints (constructor int); numbers with a fractional part become Python floats
(constructor float, exact rational model). -/
inductive Json where
  | null : Json
  | bool (b : Bool) : Json
  | int (n : Int) : Json
  | float (q : ℚ) : Json
  | str (s : String) : Json
  | arr (l : List Json) : Json
  | obj (l : List (String × Json)) : Json

/-- Python truthiness (`if not cmd`) for values produced by json.loads:
None, False, 0, 0.0, "", [] and \x7b\x7d are falsy, everything else truthy. -/
def Json.truthy : Json → Bool
  | .null => false
  | .bool b => b
  | .int n => n != 0
  | .float q => q != 0
  | .str s => s != ""
  | .arr l => !l.isEmpty
  | .obj l => !l.isEmpty

/-- The exception kinds the device main loop can raise while handling one
received line.  The loop displays str(e) of the raised exception;
`message` below records the exception text (for KeyError, Python's str()
wraps the text in quotes — we record the text itself; for TypeError and
int() literal errors the precise interpreter text is abstracted, no claim
depends on it). -/
inductive CmdError where
  | invalidCmd : CmdError
  | missingKey : CmdError
  | typeError : CmdError
  | badIntStr : CmdError
  | outOfRange : CmdError
deriving DecidableEq

def CmdError.message : CmdError → String
  | .invalidCmd => "invalid cmd"
  | .missingKey => "missing freq or duty"
  | .typeError => "TypeError"
  | .badIntStr => "invalid literal for int()"
  | .outOfRange => "invalid freq or duty"

/-- Python membership test `k in cmd` on a json.loads value: dict key
lookup for objects, element equality for lists, substring test for
strings, TypeError otherwise. -/
def pyContains (j : Json) (k : String) : Except CmdError Bool :=
  match j with
  | .obj l => .ok (l.any fun p => p.1 == k)
  | .arr l => .ok (l.any fun e => match e with | .str s => s == k | _ => false)
  | .str s => .ok (s.data.tails.any fun t => List.isPrefixOf k.data t)
  | _ => .error .typeError

/-- Python subscript `cmd[k]`: value lookup for dict (KeyError when the key
is absent), TypeError for non-dict values (the loop only subscripts after a
successful membership check on a dict). -/
def pySubscript (j : Json) (k : String) : Except CmdError Json :=
  match j with
  | .obj l =>
      match l.find? (fun p => p.1 == k) with
      | some p => .ok p.2
      | none => .error .missingKey
  | _ => .error .typeError

/-- Python int() truncation toward zero on an exact rational. -/
def pyTrunc (q : ℚ) : Int := if 0 ≤ q then ⌊q⌋ else ⌈q⌉

/-- Python int(x) on a json.loads value: identity on ints, truncation
toward zero on floats, 1/0 on booleans, base-10 string parse on strings
(ValueError on a non-integer literal), TypeError otherwise. -/
def pyInt : Json → Except CmdError Int
  | .int n => .ok n
  | .float q => .ok (pyTrunc q)
  | .bool b => .ok (if b then 1 else 0)
  | .str s =>
      match s.toInt? with
      | some n => .ok n
      | none => .error .badIntStr
  | _ => .error .typeError
  -- remaining cases null / list / dict raise TypeError in Python

/-- The validation pipeline of the device main loop (main.py lines 96-105)
applied to the result of load_cmd: `if not cmd: raise ValueError("invalid
cmd")`, `if "freq" not in cmd or "duty" not in cmd: raise KeyError(...)`,
`freq = int(cmd["freq"])`, `duty = int(cmd["duty"])`, then the range check
`freq < 1000 or freq > 1000000 or duty < 0 or duty > 65535`.  load_cmd
returns None on a JSON parse failure, hence the Option argument. -/
def validate (parsed : Option Json) : Except CmdError (Int × Int) :=
  match parsed with
  | none => .error .invalidCmd
  | some cmd =>
    if !cmd.truthy then .error .invalidCmd
    else
      match pyContains cmd "freq" with
      | .error e => .error e
      | .ok hasFreq =>
        if !hasFreq then .error .missingKey
        else
          match pyContains cmd "duty" with
          | .error e => .error e
          | .ok hasDuty =>
            if !hasDuty then .error .missingKey
            else
              match pySubscript cmd "freq" with
              | .error e => .error e
              | .ok vf =>
                match pyInt vf with
                | .error e => .error e
                | .ok freq =>
                  match pySubscript cmd "duty" with
                  | .error e => .error e
                  | .ok vd =>
                    match pyInt vd with
                    | .error e => .error e
                    | .ok duty =>
                      if freq < 1000 || freq > 1000000 || duty < 0 || duty > 65535
                      then .error .outOfRange
                      else .ok (freq, duty)

/-- The shared status record (class MCmd of main.py). -/
structure MCmd where
  rendered : Bool
  title : String
  message : String
  time : Int
deriving DecidableEq

/-- One observable effect of processing a received line: an assignment of
the shared monitor_cmd (a publish to the mailbox), or a call into the PWM
peripheral. -/
inductive Event where
  | publish (m : MCmd) : Event
  | setFreq (f : Int) : Event
  | setDuty (d : Int) : Event
deriving DecidableEq

def pad2 (n : Nat) : String := if n < 10 then "0" ++ toString n else toString n

/-- Round an exact rational to the nearest integer, ties to even — the
rounding used by Python float formatting (exact-rational model of the
binary-float pipeline; exact for the inputs exercised here). -/
def roundHalfEven (q : ℚ) : Int :=
  if q - ⌊q⌋ < 1/2 then ⌊q⌋
  else if q - ⌊q⌋ > 1/2 then ⌊q⌋ + 1
  else if ⌊q⌋ % 2 = 0 then ⌊q⌋ else ⌊q⌋ + 1

/-- The duty percentage as formatted by f-string field duty*100/65535 with
format spec .2f, followed by the percent sign (main.py line 111).  Only
evaluated on duty in [0, 65535]. -/
def fmtPercent2 (duty : Int) : String :=
  let h := (roundHalfEven ((duty : ℚ) * 10000 / 65535)).toNat
  toString (h / 100) ++ "." ++ pad2 (h % 100) ++ "%"

/-- Body of the success status: f-string FREQ: .. newline DUTY: ..% . -/
def successMessage (freq duty : Int) : String :=
  "FREQ: " ++ toString freq ++ "\nDUTY: " ++ fmtPercent2 duty

/-- The effects of one command-handling iteration of the device main loop
(main.py lines 96-123) on a line whose load_cmd result is `parsed`, at
device time `now` (time.time()).  On success the loop first assigns the
shared monitor_cmd (success status, hold 10 ms), then calls
laser_pwm.freq(freq), then laser_pwm.duty_u16(duty); on any raised error
it assigns a C Error status with hold 1000 ms and performs no PWM call. -/
def processLine (now : Int) (parsed : Option Json) : List Event :=
  match validate parsed with
  | .ok (freq, duty) =>
      [ Event.publish ⟨false, "PWM " ++ toString now, successMessage freq duty, 10⟩,
        Event.setFreq freq, Event.setDuty duty ]
  | .error e =>
      [ Event.publish ⟨false, "C Error", e.message, 1000⟩ ]

/-- Publishing a status: every publish site of main.py overwrites the
shared monitor_cmd wholesale with a fresh record whose rendered flag is
False. -/
def mailboxPublish (_box : MCmd) (title message : String) (time_ms : Int) : MCmd :=
  ⟨false, title, message, time_ms⟩

/-- One poll of the monitor thread (main.py lines 34-38): if the current
record is unrendered, draw its title and message and mark it rendered;
otherwise draw nothing. -/
def takeIfPending (box : MCmd) : Option (String × String) × MCmd :=
  if box.rendered then (none, box)
  else (some (box.title, box.message), { box with rendered := true })

/-- The Pid controller state (class Pid of stablizer.py).  Source field
names partial / integral / derivative are the three gains; they are named
p_gain / i_gain / d_gain here because partial is a Lean keyword. -/
structure Pid where
  target : ℚ
  last_error : ℚ
  accumulate_error_min : ℚ
  accumulate_error_max : ℚ
  accumulate_error : ℚ
  output : ℚ
  p_gain : ℚ
  i_gain : ℚ
  d_gain : ℚ
  p_err : ℚ
  i_err : ℚ
  d_err : ℚ

/-- Pid.__init__ (defaults i_min = -100, i_max = 100 at the call site). -/
def Pid.init (p i d t i_min i_max : ℚ) : Pid :=
  { target := t, last_error := 0,
    accumulate_error_min := i_min, accumulate_error_max := i_max,
    accumulate_error := 0, output := 0,
    p_gain := p, i_gain := i, d_gain := d,
    p_err := 0, i_err := 0, d_err := 0 }

def Pid.set_target (s : Pid) (target : ℚ) : Pid := { s with target := target }

/-- Pid.set_pidt: the length-4 assertion of the source is encoded by the
4-tuple argument type. -/
def Pid.set_pidt (s : Pid) (pidt : ℚ × ℚ × ℚ × ℚ) : Pid :=
  { s with p_gain := pidt.1, i_gain := pidt.2.1,
           d_gain := pidt.2.2.1, target := pidt.2.2.2 }

/-- Pid.pid: returns the updated state and the returned output. -/
def Pid.pid (s : Pid) (feedback : ℚ) : Pid × ℚ :=
  let error := s.target - feedback
  let acc1 := s.accumulate_error + error
  let acc2 := if acc1 < s.accumulate_error_min then s.accumulate_error_min else acc1
  let acc3 := if acc2 > s.accumulate_error_max then s.accumulate_error_max else acc2
  let p := s.p_gain * error
  let i := s.i_gain * acc3
  let d := s.d_gain * (error - s.last_error)
  let out := p + i + d
  ({ s with accumulate_error := acc3, output := out,
            p_err := p, i_err := i, d_err := d, last_error := error }, out)

/-- Host-side set_pwm (stablizer.py lines 87-91) at the JSON level: the
dict that json.dumps serializes onto the wire as one newline-terminated
line.  The device readline().strip() + json.loads recovers exactly this
value (serialization round-trip of the json library). -/
def set_pwm (freq duty : Json) : Json :=
  Json.obj [("freq", freq), ("duty", duty)]

/-- Host session state relevant to the closed loop: the Pid controller and
st.session_state.current_pwm_duty. -/
structure HostState where
  pid_controller : Pid
  current_pwm_duty : ℚ

/-- One closed-loop control tick (stablizer.py lines 270-294, the body run
when closed_loop_running is set): new_duty_cycle = current_pwm_duty +
pid(power_value), clamped by max(0, min(65535, .)), then sent with
set_pwm(pwm_freq, new_duty_cycle).  Returns the new session state and the
JSON value written to the serial port.  Note the tick does not assign
current_pwm_duty (that assignment exists only in the open-loop branch at
line 188). -/
def closedLoopTick (st : HostState) (pwm_freq : Int) (power_value : ℚ) :
    HostState × Json :=
  let r := st.pid_controller.pid power_value
  let new_duty_cycle := st.current_pwm_duty + r.2
  let new_duty_clamped := max 0 (min 65535 new_duty_cycle)
  ({ st with pid_controller := r.1 },
   set_pwm (Json.int pwm_freq) (Json.float new_duty_clamped))

/-! Helper lemmas shared by several claims. -/

/-- Decoding a well-formed integer command: the full validation pipeline
accepts an object with integer freq and duty fields inside the valid
ranges and returns exactly that pair. -/
lemma validate_set_pwm_int (f d : ℤ) (h1 : 1000 ≤ f) (h2 : f ≤ 1000000)
    (h3 : 0 ≤ d) (h4 : d ≤ 65535) :
    validate (some (set_pwm (Json.int f) (Json.int d))) = Except.ok (f, d) := by
  have hc : (f < 1000 || f > 1000000 || d < 0 || d > 65535) = false := by
    simp only [Bool.or_eq_false_iff, decide_eq_false_iff_not, not_lt, gt_iff_lt]
    omega
  simp [validate, set_pwm, pyContains, pySubscript, pyInt, Json.truthy, hc]

/-- C7: for every pair of integers f in [1000, 1000000] and d in
[0, 65535], encoding the command as the set_pwm message and running it
through the device decode pipeline (parse, truthiness, key check, int
coercion, range check) succeeds and yields exactly freq = f and
duty = d. -/
theorem C7_encode_decode_roundtrip (f d : ℤ) (h1 : 1000 ≤ f) (h2 : f ≤ 1000000)
    (h3 : 0 ≤ d) (h4 : d ≤ 65535) :
    validate (some (set_pwm (Json.int f) (Json.int d))) = Except.ok (f, d) :=
  validate_set_pwm_int f d h1 h2 h3 h4

theorem C7_encode_decode_roundtrip_witness :
    validate (some (set_pwm (Json.int 10000) (Json.int 32768))) =
      Except.ok (10000, 32768) :=
  C7_encode_decode_roundtrip 10000 32768 (by decide) (by decide) (by decide)
    (by decide)

/-- C8: a line whose freq or duty coerces to an integer outside the valid
range makes decode fail the range check; the loop publishes only a
C Error status with the out-of-range message and hold 1000 ms, and the PWM
setters are never called for that line. -/
theorem C8_out_of_range_rejected (now f d : ℤ) (vf vd : Json)
    (hf : pyInt vf = Except.ok f) (hd : pyInt vd = Except.ok d)
    (hr : f < 1000 ∨ f > 1000000 ∨ d < 0 ∨ d > 65535) :
    processLine now (some (Json.obj [("freq", vf), ("duty", vd)])) =
      [Event.publish ⟨false, "C Error", "invalid freq or duty", 1000⟩] := by
  have hc : (f < 1000 || f > 1000000 || d < 0 || d > 65535) = true := by
    simp only [Bool.or_eq_true, decide_eq_true_eq, gt_iff_lt]
    omega
  simp [processLine, validate, pyContains, pySubscript, Json.truthy, hf, hd, hc,
    CmdError.message]

theorem C8_out_of_range_rejected_witness :
    processLine 7 (some (Json.obj [("freq", Json.int 500), ("duty", Json.int 100)])) =
      [Event.publish ⟨false, "C Error", "invalid freq or duty", 1000⟩] :=
  C8_out_of_range_rejected 7 500 100 (Json.int 500) (Json.int 100) rfl rfl
    (Or.inl (by decide))

/-- C10: every line that parses to a Python-falsy value (such as the empty
object, empty array, 0, null, false or the empty string) is rejected by
the truthiness check as a malformed command — the loop publishes the
ValueError text invalid cmd, not the missing-field KeyError text, even for
the empty object where both keys are absent. -/
theorem C10_falsy_is_invalid_cmd (now : ℤ) (v : Json) (h : v.truthy = false) :
    processLine now (some v) =
      [Event.publish ⟨false, "C Error", "invalid cmd", 1000⟩] := by
  simp [processLine, validate, h, CmdError.message]

theorem C10_falsy_is_invalid_cmd_witness :
    processLine 0 (some (Json.obj [])) =
      [Event.publish ⟨false, "C Error", "invalid cmd", 1000⟩] :=
  C10_falsy_is_invalid_cmd 0 (Json.obj []) rfl

/-- C9: the mailbox is a single overwrite-on-publish slot: after
publishing A and then B with no intervening poll, the monitor renders
exactly the content of B (A is silently dropped), and a second poll after
rendering returns nothing — each published message is rendered at most
once. -/
theorem C9_mailbox_single_slot (box : MCmd) (tA mA : String) (hA : Int)
    (tB mB : String) (hB : Int) :
    (takeIfPending (mailboxPublish (mailboxPublish box tA mA hA) tB mB hB)).1 =
      some (tB, mB) ∧
    (takeIfPending
      ((takeIfPending (mailboxPublish (mailboxPublish box tA mA hA) tB mB hB)).2)).1 =
      none := by
  simp [mailboxPublish, takeIfPending]

/-- C2 counterexample: on the valid line freq 10000, duty 32768 the loop
emits the success publish FIRST and only then the freq and duty PWM calls,
so the claimed order (freq, duty, then publish — actuation before
reporting) is false on the code. -/
theorem C2_counterexample_publish_first :
    processLine 0 (some (set_pwm (Json.int 10000) (Json.int 32768))) =
      [Event.publish ⟨false, "PWM " ++ toString (0 : ℤ),
        successMessage 10000 32768, 10⟩,
       Event.setFreq 10000, Event.setDuty 32768] ∧
    processLine 0 (some (set_pwm (Json.int 10000) (Json.int 32768))) ≠
      [Event.setFreq 10000, Event.setDuty 32768,
       Event.publish ⟨false, "PWM " ++ toString (0 : ℤ),
        successMessage 10000 32768, 10⟩] := by
  have h1 : processLine 0 (some (set_pwm (Json.int 10000) (Json.int 32768))) =
      [Event.publish ⟨false, "PWM " ++ toString (0 : ℤ),
        successMessage 10000 32768, 10⟩,
       Event.setFreq 10000, Event.setDuty 32768] := by
    simp [processLine,
      validate_set_pwm_int 10000 32768 (by decide) (by decide) (by decide) (by decide)]
  refine ⟨h1, ?_⟩
  rw [h1]
  simp

/-- C2 amended: for every successfully decoded and validated command the
loop performs its effects in the order publish-success-status (title
PWM plus timestamp, body from frequency and duty percentage, hold 10 ms),
THEN apply freq, THEN apply duty; frequency is still set before duty, but
reporting precedes actuation. -/
theorem C2_success_order (now f d : ℤ) (h1 : 1000 ≤ f) (h2 : f ≤ 1000000)
    (h3 : 0 ≤ d) (h4 : d ≤ 65535) :
    processLine now (some (set_pwm (Json.int f) (Json.int d))) =
      [Event.publish ⟨false, "PWM " ++ toString now, successMessage f d, 10⟩,
       Event.setFreq f, Event.setDuty d] := by
  simp [processLine, validate_set_pwm_int f d h1 h2 h3 h4]

theorem C2_success_order_witness :
    processLine 0 (some (set_pwm (Json.int 10000) (Json.int 32768))) =
      [Event.publish ⟨false, "PWM " ++ toString (0 : ℤ),
        successMessage 10000 32768, 10⟩,
       Event.setFreq 10000, Event.setDuty 32768] :=
  C2_success_order 0 10000 32768 (by decide) (by decide) (by decide) (by decide)

/-- The success body at freq 10000, duty 32768 renders the duty as exactly
50.00 percent, as the spec scenario requires. -/
lemma successMessage_10000_32768 :
    successMessage 10000 32768 = "FREQ: 10000\nDUTY: 50.00%" := by
  have hfloor : ⌊((32768 : ℤ) : ℚ) * 10000 / 65535⌋ = 5000 := by norm_num
  have hr : roundHalfEven (((32768 : ℤ) : ℚ) * 10000 / 65535) = 5000 := by
    rw [roundHalfEven, hfloor]
    norm_num
  rw [successMessage, fmtPercent2]
  rw [hr]
  rfl

/-- C3 counterexample: the line freq 10000, duty 1.5 decodes SUCCESSFULLY
(the claim says it fails with TypeMismatch): int() silently truncates the
non-integral value to 1, which passes the range check and reaches the duty
actuation. -/
theorem C3_counterexample_truncates :
    validate (some (set_pwm (Json.int 10000) (Json.float (3 / 2)))) =
      Except.ok (10000, 1) ∧
    Event.setDuty 1 ∈
      processLine 0 (some (set_pwm (Json.int 10000) (Json.float (3 / 2)))) := by
  have ht : pyTrunc (3 / 2 : ℚ) = 1 := by
    rw [pyTrunc, if_pos (by norm_num : (0 : ℚ) ≤ 3 / 2)]
    norm_num
  have hv : validate (some (set_pwm (Json.int 10000) (Json.float (3 / 2)))) =
      Except.ok (10000, 1) := by
    simp [validate, set_pwm, pyContains, pySubscript, pyInt, Json.truthy, ht]
  exact ⟨hv, by simp [processLine, hv]⟩

/-- C3 amended: a non-integral numeric value is never rejected: int()
truncates it toward zero, and whenever the truncations land in range the
command is accepted with the truncated values and proceeds to actuation. -/
theorem C3_nonintegral_truncated (f : ℤ) (q : ℚ) (h1 : 1000 ≤ f)
    (h2 : f ≤ 1000000) (h3 : 0 ≤ pyTrunc q) (h4 : pyTrunc q ≤ 65535) :
    validate (some (set_pwm (Json.int f) (Json.float q))) =
      Except.ok (f, pyTrunc q) := by
  have hc : (f < 1000 || f > 1000000 || pyTrunc q < 0 || pyTrunc q > 65535) = false := by
    simp only [Bool.or_eq_false_iff, decide_eq_false_iff_not, not_lt, gt_iff_lt]
    omega
  simp [validate, set_pwm, pyContains, pySubscript, pyInt, Json.truthy, hc]

theorem C3_nonintegral_truncated_witness :
    validate (some (set_pwm (Json.int 10000) (Json.float (3 / 2)))) =
      Except.ok (10000, pyTrunc (3 / 2)) :=
  C3_nonintegral_truncated 10000 (3 / 2) (by decide) (by decide)
    (by rw [pyTrunc, if_pos (by norm_num : (0 : ℚ) ≤ 3 / 2)]; norm_num)
    (by rw [pyTrunc, if_pos (by norm_num : (0 : ℚ) ≤ 3 / 2)]; norm_num)

/-- The two sequential clamp ifs of Pid.pid compute min (max x mn) mx. -/
lemma seq_clamp_eq (x mn mx : ℚ) :
    (if (if x < mn then mn else x) > mx then mx
     else (if x < mn then mn else x)) = min (max x mn) mx := by
  split_ifs <;> rw [min_def, max_def] <;> split_ifs <;> linarith

lemma pid_accumulate_error_min_eq (s : Pid) (fb : ℚ) :
    (s.pid fb).1.accumulate_error_min = s.accumulate_error_min := rfl

lemma pid_accumulate_error_max_eq (s : Pid) (fb : ℚ) :
    (s.pid fb).1.accumulate_error_max = s.accumulate_error_max := rfl

lemma pid_accumulate_error_eq (s : Pid) (fb : ℚ) :
    (s.pid fb).1.accumulate_error =
      min (max (s.accumulate_error + (s.target - fb)) s.accumulate_error_min)
        s.accumulate_error_max := by
  simp only [Pid.pid]
  rw [seq_clamp_eq]

lemma pid_acc_le_max (s : Pid) (fb : ℚ) :
    (s.pid fb).1.accumulate_error ≤ s.accumulate_error_max := by
  rw [pid_accumulate_error_eq]
  exact min_le_right _ _

lemma iterate_pid_max_eq (s : Pid) (fb : ℚ) (n : ℕ) :
    ((fun t => (t.pid fb).1)^[n] s).accumulate_error_max = s.accumulate_error_max := by
  induction n with
  | zero => rfl
  | succ k ih => rw [Function.iterate_succ_apply', pid_accumulate_error_max_eq, ih]

lemma iterate_pid_acc_le (s : Pid) (fb : ℚ) (n : ℕ)
    (h2 : s.accumulate_error ≤ s.accumulate_error_max) :
    ((fun t => (t.pid fb).1)^[n] s).accumulate_error ≤ s.accumulate_error_max := by
  cases n with
  | zero => simpa using h2
  | succ k =>
    rw [Function.iterate_succ_apply']
    calc ((fun t : Pid => (t.pid fb).1)
            ((fun t : Pid => (t.pid fb).1)^[k] s)).accumulate_error
        ≤ ((fun t : Pid => (t.pid fb).1)^[k] s).accumulate_error_max :=
          pid_acc_le_max _ _
      _ = s.accumulate_error_max := iterate_pid_max_eq s fb k

/-- C4: one Pid.pid call computes error = target - feedback, accumulates
and clamps the integral accumulator, returns
p_gain*error + i_gain*(clamped accumulator) + d_gain*(error - last_error),
and stores error as last_error for the next call. -/
theorem C4_pid_update_law (s : Pid) (fb : ℚ) :
    (s.pid fb).2 =
      s.p_gain * (s.target - fb)
      + s.i_gain * (min (max (s.accumulate_error + (s.target - fb))
          s.accumulate_error_min) s.accumulate_error_max)
      + s.d_gain * ((s.target - fb) - s.last_error) ∧
    (s.pid fb).1.accumulate_error =
      min (max (s.accumulate_error + (s.target - fb)) s.accumulate_error_min)
        s.accumulate_error_max ∧
    (s.pid fb).1.last_error = s.target - fb := by
  refine ⟨?_, pid_accumulate_error_eq s fb, rfl⟩
  simp only [Pid.pid]
  rw [seq_clamp_eq]

/-- C5: the anti-windup invariant: if the accumulator lies in
[i_min, i_max] before an update it still does afterwards, and under any
number of repeated updates with constant positive error the accumulator
never exceeds i_max. -/
theorem C5_antiwindup (s : Pid) (fb : ℚ) (n : ℕ)
    (h1 : s.accumulate_error_min ≤ s.accumulate_error)
    (h2 : s.accumulate_error ≤ s.accumulate_error_max)
    (_h3 : 0 < s.target - fb) :
    (s.accumulate_error_min ≤ (s.pid fb).1.accumulate_error ∧
     (s.pid fb).1.accumulate_error ≤ s.accumulate_error_max) ∧
    ((fun t => (t.pid fb).1)^[n] s).accumulate_error ≤ s.accumulate_error_max := by
  refine ⟨⟨?_, pid_acc_le_max s fb⟩, iterate_pid_acc_le s fb n h2⟩
  rw [pid_accumulate_error_eq]
  exact le_min (le_max_right _ _) (h1.trans h2)

theorem C5_antiwindup_witness :
    ((Pid.init 150000 7000 0 10 (-100) 100).accumulate_error_min ≤
       ((Pid.init 150000 7000 0 10 (-100) 100).pid 0).1.accumulate_error ∧
     ((Pid.init 150000 7000 0 10 (-100) 100).pid 0).1.accumulate_error ≤
       (Pid.init 150000 7000 0 10 (-100) 100).accumulate_error_max) ∧
    ((fun t => (t.pid 0).1)^[3]
        (Pid.init 150000 7000 0 10 (-100) 100)).accumulate_error ≤
      (Pid.init 150000 7000 0 10 (-100) 100).accumulate_error_max :=
  C5_antiwindup (Pid.init 150000 7000 0 10 (-100) 100) 0 3
    (by norm_num [Pid.init]) (by norm_num [Pid.init]) (by norm_num [Pid.init])

/-- C6: set_target and set_pidt touch only the configuration (gains and
target); the integral accumulator, last_error, output and the clamp bounds
are all left unchanged, so residual integral windup survives parameter
changes. -/
theorem C6_config_updates_frame (s : Pid) (t : ℚ) (pidt : ℚ × ℚ × ℚ × ℚ) :
    (s.set_target t).accumulate_error = s.accumulate_error ∧
    (s.set_target t).last_error = s.last_error ∧
    (s.set_target t).output = s.output ∧
    (s.set_target t).p_gain = s.p_gain ∧
    (s.set_target t).i_gain = s.i_gain ∧
    (s.set_target t).d_gain = s.d_gain ∧
    (s.set_target t).accumulate_error_min = s.accumulate_error_min ∧
    (s.set_target t).accumulate_error_max = s.accumulate_error_max ∧
    (s.set_pidt pidt).accumulate_error = s.accumulate_error ∧
    (s.set_pidt pidt).last_error = s.last_error ∧
    (s.set_pidt pidt).output = s.output ∧
    (s.set_pidt pidt).accumulate_error_min = s.accumulate_error_min ∧
    (s.set_pidt pidt).accumulate_error_max = s.accumulate_error_max :=
  ⟨rfl, rfl, rfl, rfl, rfl, rfl, rfl, rfl, rfl, rfl, rfl, rfl, rfl⟩

/-- C1 counterexample: one closed-loop tick from current_pwm_duty = 0 with
a unit-gain P controller sends duty 1 but leaves the stored
current_pwm_duty at 0 — the tick does NOT update the stored duty to the
value just sent. -/
theorem C1_counterexample_no_update :
    (closedLoopTick ⟨Pid.init 1 0 0 1 (-100) 100, 0⟩ 10000 0).1.current_pwm_duty
      = 0 ∧
    (closedLoopTick ⟨Pid.init 1 0 0 1 (-100) 100, 0⟩ 10000 0).2 =
      set_pwm (Json.int 10000) (Json.float 1) ∧
    (0 : ℚ) ≠ 1 := by
  refine ⟨rfl, ?_, by norm_num⟩
  simp only [closedLoopTick, set_pwm, Pid.pid, Pid.init]
  norm_num [min_def, max_def]

/-- C1 amended: each closed-loop tick sends
freq together with the clamped current_pwm_duty + Pid.pid(power), and
updates the Pid state, but leaves the stored current_pwm_duty unchanged —
every tick keeps using the duty last set by the open-loop branch as its
base, not the duty previously sent. -/
theorem C1_tick_behavior (st : HostState) (pwm_freq : ℤ) (power : ℚ) :
    (closedLoopTick st pwm_freq power).2 =
      set_pwm (Json.int pwm_freq)
        (Json.float (max 0 (min 65535
          (st.current_pwm_duty + (st.pid_controller.pid power).2)))) ∧
    (closedLoopTick st pwm_freq power).1.pid_controller =
      (st.pid_controller.pid power).1 ∧
    (closedLoopTick st pwm_freq power).1.current_pwm_duty =
      st.current_pwm_duty :=
  ⟨rfl, rfl, rfl⟩

end CO2Laser
